import Mathlib

/-!
# Verification of the USSD dialog engine (`app.py`)

A shallow embedding of the Village Marketplace USSD service.  Python
strings are modelled as Lean `String`s; string helpers that Python
provides (`str.strip`, `str.split("*")`, truthiness of strings and
optionals) are modelled explicitly at the character-list level.  The
mutable per-session dictionary becomes a `Session` structure threaded
through the functions; the SQLite `businesses` table becomes a
`List Business` ordered newest-first (`ORDER BY id DESC`), and the
side effect of `insert_business` becomes an explicit list of inserted
records returned by the request handler.
-/

/-- Python `str.strip()` restricted to whitespace characters: drop
whitespace from both ends of the string. -/
def pyStrip (s : String) : String :=
  String.mk (((s.data.dropWhile Char.isWhitespace).reverse.dropWhile Char.isWhitespace).reverse)

/-- Python `text.split("*")` (single-character separator): split the
character list at every `'*'`; a list with no `'*'` yields one token,
and separators at the ends yield empty tokens, exactly as in Python. -/
def splitStar : List Char → List Char → List String
  | [], acc => [String.mk acc.reverse]
  | c :: rest, acc =>
      if c = '*' then String.mk acc.reverse :: splitStar rest []
      else splitStar rest (c :: acc)

/-- `parts = text.split("*") if text else []` (app.py line 324): an empty
string yields the empty token sequence. -/
def tokenize (text : String) : List String :=
  if text = "" then [] else splitStar text.data []

/-- `parts = [p for p in parts if p.strip() != "98"]` (app.py line 328):
drop every token whose stripped form is the pagination marker `"98"`. -/
def sanitize (parts : List String) : List String :=
  parts.filter (fun p => pyStrip p ≠ "98")

/-- `PILOT_CATEGORIES` (app.py lines 42-50). -/
def PILOT_CATEGORIES : List (String × String) :=
  [("1", "Shops & Daily Needs"),
   ("2", "Food & Drinks"),
   ("3", "Transport"),
   ("4", "Services (Fundis)"),
   ("5", "Farming & Inputs"),
   ("6", "Health & Care"),
   ("7", "Education & Community")]

/-- `TRANSPORT_SUBCATS` (app.py lines 53-57). -/
def TRANSPORT_SUBCATS : List (String × String) :=
  [("1", "Riders"), ("2", "Pickups"), ("3", "Lorries")]

/-- `PILOT_VILLAGES` (app.py lines 60-64). -/
def PILOT_VILLAGES : List (String × String) :=
  [("1", "Sega"), ("2", "Bumala"), ("3", "Murende")]

/-- `RECENT_LIMIT = 5` (app.py line 71). -/
def RECENT_LIMIT : Nat := 5

/-- The wizard dictionary `session["add"]`: each field is unset until its
step completes. -/
structure AddState where
  village : Option String
  name : Option String
  category_main : Option String
  category_sub : Option String
deriving Repr, DecidableEq

/-- The empty wizard dictionary `{}`. -/
def AddState.empty : AddState := ⟨none, none, none, none⟩

/-- One entry of `SESSIONS`: `{"recent": [...], "add": {...}}`
(app.py line 115). -/
structure Session where
  recent : List String
  add : AddState
deriving Repr, DecidableEq

/-- `get_session` on an unseen id: `{"recent": [], "add": {}}`. -/
def Session.fresh : Session := ⟨[], AddState.empty⟩

/-- A row of the `businesses` table (the `created_at` timestamp is
outside the model). -/
structure Business where
  name : String
  category : String
  phone : String
  village : String
deriving Repr, DecidableEq

/-- `add_recent` (app.py lines 119-126): ignore an empty phone, move an
existing phone to the front, cap the list at `RECENT_LIMIT`. -/
def add_recent (session : Session) (phone : String) : Session :=
  if phone = "" then session
  else { session with recent := (phone :: session.recent.erase phone).take RECENT_LIMIT }

/-- `category_label` (app.py lines 129-133): first pair with matching key. -/
def category_label (choice : String) : Option String :=
  (PILOT_CATEGORIES.find? (fun kv => kv.1 = choice)).map (fun kv => kv.2)

/-- `transport_subcat_label` (app.py lines 136-140). -/
def transport_subcat_label (choice : String) : Option String :=
  (TRANSPORT_SUBCATS.find? (fun kv => kv.1 = choice)).map (fun kv => kv.2)

/-- `village_label` (app.py lines 143-147). -/
def village_label (choice : String) : Option String :=
  (PILOT_VILLAGES.find? (fun kv => kv.1 = choice)).map (fun kv => kv.2)

/-- `normalize_phone` (app.py lines 150-151): `p.replace("+", "").strip()`.
Replacing the single-character pattern `"+"` by the empty string removes
every `'+'` character, i.e. filters it out of the character list. -/
def normalize_phone (p : String) : String :=
  pyStrip (String.mk (p.data.filter (fun c => c ≠ '+')))

/-- `normalize_category_for_storage` (app.py lines 154-165).  The Python
test `if transport_subcat:` is falsy for both `None` and `""`. -/
def normalize_category_for_storage (main_cat : String) (transport_subcat : Option String) : String :=
  if main_cat ≠ "Transport" then main_cat
  else if (transport_subcat.getD "") ≠ "" then "Transport - " ++ transport_subcat.getD ""
  else "Transport"

/-- `transport_query_categories` (app.py lines 168-179). -/
def transport_query_categories (subcat : String) : List String :=
  if subcat = "Riders" then ["Transport - Riders"]
  else if subcat = "Pickups" then ["Transport - Pickups", "Transport"]
  else if subcat = "Lorries" then ["Transport - Lorries"]
  else ["Transport"]

/-- `list_latest_by_category` (app.py lines 182-197): the table is
modelled newest-first, so `ORDER BY id DESC LIMIT n` is filter-then-take. -/
def list_latest_by_category (dbRows : List Business) (category : String) (limit : Nat) :
    List Business :=
  (dbRows.filter (fun b => b.category = category)).take limit

/-- `list_latest_by_categories` (app.py lines 200-216): SQL `IN` is list
membership. -/
def list_latest_by_categories (dbRows : List Business) (categories : List String) (limit : Nat) :
    List Business :=
  (dbRows.filter (fun b => categories.contains b.category)).take limit

/-- `insert_business` (app.py lines 219-230): every field is stripped on
insert; the produced row is returned instead of written to SQLite. -/
def insert_business (name category phone village : String) : Business :=
  ⟨pyStrip name, pyStrip category, pyStrip phone, pyStrip village⟩

/-- `main_menu` (app.py lines 240-255). -/
def main_menu : String :=
  String.intercalate "\n"
    ["CON Village Marketplace (PILOT)",
     "1. Shops & Daily Needs",
     "2. Food & Drinks",
     "3. Transport",
     "4. Services (Fundis)",
     "5. Farming & Inputs",
     "6. Health & Care",
     "7. Education & Community",
     "8. Add / Update Business",
     "9. Recent numbers",
     "0. Help"]

/-- `help_menu` (app.py lines 258-268). -/
def help_menu : String :=
  String.intercalate "\n"
    ["CON Help",
     "Use 1-7 to browse categories.",
     "Transport has sub-menu: Riders / Pickups / Lorries.",
     "Use 8 to add your business (choose village first).",
     "Use 9 to see numbers you viewed in this session.",
     "0. Back"]

/-- `format_list` (app.py lines 271-293): header, up to 9 numbered rows
(two lines per row), `0. Back`, optional `9. Recent numbers`. -/
def format_list (title : String) (rows : List Business) (show_recent : Bool) : String :=
  let header := "CON " ++ title
  if rows = [] then
    String.intercalate "\n"
      ([header, "No listings yet.", "0. Back"] ++ if show_recent then ["9. Recent numbers"] else [])
  else
    let body := ((rows.take 9).enumFrom 1).flatMap
      (fun p => [toString p.1 ++ ". " ++ p.2.name ++ " (" ++ p.2.village ++ ")",
                 "   Call: " ++ p.2.phone])
    String.intercalate "\n"
      ((header :: body) ++ ["0. Back"] ++ if show_recent then ["9. Recent numbers"] else [])

/-- `transport_menu` (app.py lines 296-301). -/
def transport_menu : String :=
  String.intercalate "\n"
    ("CON Transport" :: TRANSPORT_SUBCATS.map (fun kv => kv.1 ++ ". " ++ kv.2) ++ ["0. Back"])

/-- The `CON Recent numbers` screen (`ussd`, app.py lines 347-356). -/
def recent_screen (recent : List String) : String :=
  String.intercalate "\n"
    (if recent = [] then
      ["CON Recent numbers (this session):", "None yet.", "0. Back"]
    else
      "CON Recent numbers (this session):"
        :: ((recent.take RECENT_LIMIT).enumFrom 1).map (fun p => toString p.1 ++ ". " ++ p.2)
        ++ ["0. Back"])

/-- The confirmation screen built twice inside the wizard
(app.py lines 457-470 and 489-502); note the double space after
`Phone:`. -/
def confirm_screen (v n c p : String) : String :=
  String.intercalate "\n"
    ["CON Confirm:",
     "Village: " ++ v,
     "Name: " ++ n,
     "Category: " ++ c,
     "Phone:  " ++ p,
     "1. Confirm",
     "2. Cancel",
     "0. Back"]

/-- The village-choice screen of wizard step A (app.py lines 402-408). -/
def village_choice_screen : String :=
  String.intercalate "\n"
    ("CON Choose your village:" :: PILOT_VILLAGES.map (fun kv => kv.1 ++ ". " ++ kv.2)
      ++ ["0. Back"])

/-- The category-choice screen of wizard step B (app.py lines 427-431). -/
def category_choice_screen : String :=
  String.intercalate "\n"
    ("CON Choose category:" :: PILOT_CATEGORIES.map (fun kv => kv.1 ++ ". " ++ kv.2)
      ++ ["0. Back"])

/-- The transport-type screen of wizard step C (app.py lines 445-449). -/
def transport_type_screen : String :=
  String.intercalate "\n"
    ("CON Transport type:" :: TRANSPORT_SUBCATS.map (fun kv => kv.1 ++ ". " ++ kv.2)
      ++ ["0. Back"])

/-- The Add / Update wizard, i.e. the `if choice == "8":` block of `ussd`
(app.py lines 398-535).  Returns the reply text, the updated session and
the list of rows inserted into the catalog.  Python dictionary-truthiness
checks `if not v_label:` etc. are rendered as emptiness tests on
`Option.getD _ ""` (falsy exactly for `None` and `""`). -/
def handle_add (session : Session) (phone_number : String) (parts : List String) :
    String × Session × List Business :=
  let add_state := session.add
  if parts.length = 1 then
    (village_choice_screen, { session with add := AddState.empty }, [])
  else if parts.length = 2 then
    let v_label := (village_label (pyStrip (parts.getD 1 ""))).getD ""
    if v_label = "" then
      ("CON Invalid village. Choose 1-3.\n0. Back", session, [])
    else
      ("CON Enter business name:\n0. Back",
       { session with add := { add_state with village := some v_label } }, [])
  else if parts.length = 3 then
    let name := pyStrip (parts.getD 2 "")
    if name = "" then
      ("CON Please enter a business name:\n0. Back", session, [])
    else
      (category_choice_screen,
       { session with add := { add_state with name := some name } }, [])
  else if parts.length = 4 then
    let cat_label := (category_label (pyStrip (parts.getD 3 ""))).getD ""
    if cat_label = "" then
      ("CON Invalid category. Choose 1-7.\n0. Back", session, [])
    else
      let session' := { session with add := { add_state with category_main := some cat_label } }
      if cat_label = "Transport" then
        (transport_type_screen, session', [])
      else
        (confirm_screen (add_state.village.getD "Bumala") (add_state.name.getD "")
          cat_label (normalize_phone phone_number), session', [])
  else if parts.length = 5 ∧ add_state.category_main = some "Transport" then
    let sub_label := (transport_subcat_label (pyStrip (parts.getD 4 ""))).getD ""
    if sub_label = "" then
      ("CON Invalid option.\n1. Riders\n2. Pickups\n3. Lorries\n0. Back", session, [])
    else
      (confirm_screen (add_state.village.getD "Bumala") (add_state.name.getD "")
        (normalize_category_for_storage "Transport" (some sub_label))
        (normalize_phone phone_number),
       { session with add := { add_state with category_sub := some sub_label } }, [])
  else if 5 ≤ parts.length then
    if add_state.category_main = some "Transport" ∧ parts.length < 6 then
      ("CON Choose 1 to confirm or 2 to cancel.\n0. Back", session, [])
    else
      let action :=
        if add_state.category_main = some "Transport" then pyStrip (parts.getD 5 "")
        else pyStrip (parts.getD 4 "")
      if action = "2" then
        ("END Cancelled.", { session with add := AddState.empty }, [])
      else if action = "1" then
        let v := add_state.village.getD "Bumala"
        let n := pyStrip (add_state.name.getD "")
        let main := pyStrip (add_state.category_main.getD "")
        let sub : Option String :=
          if main = "Transport" then some (pyStrip (add_state.category_sub.getD "")) else none
        let p := normalize_phone phone_number
        if v = "" ∨ n = "" ∨ main = "" ∨ p = "" then
          ("END Missing data. Please try again.", { session with add := AddState.empty }, [])
        else
          ("END Saved! You are now listed. Thank you.",
           { session with add := AddState.empty },
           [insert_business n
              (normalize_category_for_storage main (if main = "Transport" then sub else none))
              p v])
      else
        ("CON Invalid option.\n1. Confirm\n2. Cancel\n0. Back", session, [])
  else
    (main_menu, session, [])

/-- The Transport category-browse branch of `ussd`
(app.py lines 364-386). -/
def handle_transport (dbRows : List Business) (session : Session) (parts : List String) :
    String × Session × List Business :=
  if parts.length = 1 then
    (transport_menu, session, [])
  else if parts.length = 2 ∧ pyStrip (parts.getD 1 "") = "0" then
    (main_menu, session, [])
  else if 3 ≤ parts.length ∧ pyStrip (parts.getLastD "") = "0" then
    (transport_menu, session, [])
  else
    let sub_label := (transport_subcat_label (pyStrip (parts.getD 1 ""))).getD ""
    if sub_label = "" then
      ("CON Invalid option.\n1. Riders\n2. Pickups\n3. Lorries\n0. Back", session, [])
    else
      let rows := list_latest_by_categories dbRows (transport_query_categories sub_label) 20
      let session' := (rows.take RECENT_LIMIT).foldl (fun s r => add_recent s r.phone) session
      (format_list ("Transport - " ++ sub_label ++ " (latest):") rows true, session', [])

/-- The dispatcher of `ussd` on the sanitized token sequence
(app.py lines 334-538). -/
def ussd_parts (dbRows : List Business) (session : Session) (phone_number : String)
    (parts : List String) : String × Session × List Business :=
  if parts = [] ∨ parts = [""] then
    (main_menu, session, [])
  else
    let choice := pyStrip (parts.headD "")
    if choice = "0" then
      (if parts.length = 1 then help_menu else main_menu, session, [])
    else if choice = "9" then
      (recent_screen session.recent, session, [])
    else
      let cat := (category_label choice).getD ""
      if cat = "Transport" then
        handle_transport dbRows session parts
      else if cat ≠ "" ∧ (PILOT_CATEGORIES.map Prod.fst).contains choice then
        let rows := list_latest_by_category dbRows cat 20
        let session' := (rows.take RECENT_LIMIT).foldl (fun s r => add_recent s r.phone) session
        (format_list (cat ++ " (latest):") rows true, session', [])
      else if choice = "8" then
        handle_add session phone_number parts
      else
        (main_menu, session, [])

/-- The `ussd` request handler (app.py lines 312-538): strip the incoming
phone number and text, tokenize, sanitize, dispatch. -/
def ussd (dbRows : List Business) (session : Session) (phone_number_raw : String)
    (text_raw : String) : String × Session × List Business :=
  ussd_parts dbRows session (pyStrip phone_number_raw) (sanitize (tokenize (pyStrip text_raw)))

/-- A multi-turn USSD dialog: the gateway sends one request per keystroke,
each carrying the full accumulated text; the session state produced by one
turn is fed to the next.  Returns the final reply, the final session and
all inserted rows. -/
def replay (dbRows : List Business) (phone_number : String) :
    Session → List String → String × Session × List Business
  | s, [] => ("", s, [])
  | s, [t] => ussd dbRows s phone_number t
  | s, t :: t' :: ts =>
      let step := ussd dbRows s phone_number t
      let rest := replay dbRows phone_number step.2.1 (t' :: ts)
      (rest.1, rest.2.1, step.2.2 ++ rest.2.2)

/-! ## Auxiliary notions and lemmas -/

/-- `beginsWith pre s`: the text `s` begins with the prefix `pre`
(stated on the underlying character lists). -/
def beginsWith (pre s : String) : Prop :=
  s.data.take pre.data.length = pre.data

instance (pre s : String) : Decidable (beginsWith pre s) := by
  unfold beginsWith; infer_instance

/-- Modelled from the spec: a normalization that deletes only a `'+'`
standing at the very front of the phone string (the behaviour the spec
ascribes to phone normalization). -/
def strip_leading_plus_spec (p : String) : String :=
  match p.data with
  | '+' :: rest => String.mk rest
  | _ => p

/-- A character of `pyStrip s` is a character of `s`. -/
theorem mem_pyStrip_data {c : Char} {s : String} (h : c ∈ (pyStrip s).data) :
    c ∈ s.data := by
  have h1 := (List.mem_reverse).1 h
  have h2 := (List.dropWhile_sublist Char.isWhitespace).subset h1
  have h3 := (List.mem_reverse).1 h2
  exact (List.dropWhile_sublist Char.isWhitespace).subset h3

/-! ## Claim theorems -/

set_option maxHeartbeats 2000000 in
/-- C2: sanitization is idempotent and marker-position-independent: the
marker token `"98"` inserted at any position (i.e. between any two
sublists) is removed without affecting the rest, sanitizing twice equals
sanitizing once, and the raw inputs `"1*98*2"` and `"1*2"` produce
identical responses (reply text, session and inserts) for every catalog,
session state and caller phone. -/
theorem sanitize_marker_invariant :
    (∀ l1 l2 : List String, sanitize (l1 ++ "98" :: l2) = sanitize (l1 ++ l2)) ∧
    (∀ l : List String, sanitize (sanitize l) = sanitize l) ∧
    (∀ (db : List Business) (s : Session) (ph : String),
      ussd db s ph "1*98*2" = ussd db s ph "1*2") := by
  have h98 : (decide (pyStrip "98" ≠ "98")) = false := by decide
  refine ⟨?_, ?_, ?_⟩
  · intro l1 l2
    simp only [sanitize, List.filter_append, List.filter_cons, h98]
    simp
  · intro l
    simp only [sanitize, List.filter_filter, Bool.and_self]
  · intro db s ph
    unfold ussd
    have h : sanitize (tokenize (pyStrip "1*98*2")) = sanitize (tokenize (pyStrip "1*2")) := by
      decide
    rw [h]

/-- C3: starting from a fresh session, after any finite sequence of
`add_recent` calls the recent list holds at most `RECENT_LIMIT = 5`
entries and no duplicates, and adding (or re-adding) any non-empty phone
puts it in front while keeping the list duplicate-free and capped. -/
theorem add_recent_invariant (phones : List String) (p : String) (hp : p ≠ "") :
    ((phones.foldl add_recent Session.fresh).recent.length ≤ RECENT_LIMIT ∧
      (phones.foldl add_recent Session.fresh).recent.Nodup) ∧
    (add_recent (phones.foldl add_recent Session.fresh) p).recent.head? = some p ∧
    (add_recent (phones.foldl add_recent Session.fresh) p).recent.Nodup ∧
    (add_recent (phones.foldl add_recent Session.fresh) p).recent.length ≤ RECENT_LIMIT := by
  have step : ∀ (s : Session) (q : String),
      s.recent.length ≤ RECENT_LIMIT ∧ s.recent.Nodup →
      (add_recent s q).recent.length ≤ RECENT_LIMIT ∧ (add_recent s q).recent.Nodup := by
    intro s q h
    unfold add_recent
    split
    · exact h
    · refine ⟨List.length_take_le _ _, ?_⟩
      refine List.Nodup.sublist (List.take_sublist _ _) ?_
      refine List.nodup_cons.2 ⟨h.2.not_mem_erase, h.2.erase q⟩
  have fold : ∀ (l : List String) (s : Session),
      s.recent.length ≤ RECENT_LIMIT ∧ s.recent.Nodup →
      (l.foldl add_recent s).recent.length ≤ RECENT_LIMIT ∧
        (l.foldl add_recent s).recent.Nodup := by
    intro l
    induction l with
    | nil => intro s h; exact h
    | cons q rest ih => intro s h; exact ih _ (step s q h)
  have base : (phones.foldl add_recent Session.fresh).recent.length ≤ RECENT_LIMIT ∧
      (phones.foldl add_recent Session.fresh).recent.Nodup := by
    refine fold phones Session.fresh ⟨?_, ?_⟩ <;> simp [Session.fresh]
  refine ⟨base, ?_, (step _ p base).2, (step _ p base).1⟩
  unfold add_recent
  rw [if_neg hp]
  rfl

/-- Closed witness for `add_recent_invariant` at a concrete run that
re-adds an existing phone. -/
theorem add_recent_invariant_witness :
    (((["a", "b", "a"] : List String).foldl add_recent Session.fresh).recent.length ≤ RECENT_LIMIT ∧
      ((["a", "b", "a"] : List String).foldl add_recent Session.fresh).recent.Nodup) ∧
    (add_recent ((["a", "b", "a"] : List String).foldl add_recent Session.fresh) "b").recent.head?
        = some "b" ∧
    (add_recent ((["a", "b", "a"] : List String).foldl add_recent Session.fresh) "b").recent.Nodup ∧
    (add_recent ((["a", "b", "a"] : List String).foldl add_recent Session.fresh) "b").recent.length
        ≤ RECENT_LIMIT :=
  add_recent_invariant ["a", "b", "a"] "b" (by decide)

/-- C6 counterexample: sanitization also removes tokens that merely
*strip* to `"98"`; the token `" 98 "` differs from `"98"` yet is removed,
so "removes exactly the tokens that exactly equal the marker" fails. -/
theorem sanitize_nonexact_marker_counterexample :
    sanitize ["1", " 98 ", "2"] = ["1", "2"] ∧ (" 98 " : String) ≠ "98" := by
  constructor
  · decide
  · decide

/-- C6 (amended): an empty raw input yields the empty token sequence, and
sanitization removes exactly those tokens whose whitespace-stripped form
equals `"98"`, keeping all other tokens unchanged and in their relative
order (the output is a sublist of the input). -/
theorem sanitize_characterization :
    tokenize "" = [] ∧
    ∀ parts : List String,
      List.Sublist (sanitize parts) parts ∧
      ∀ p : String, p ∈ sanitize parts ↔ (p ∈ parts ∧ pyStrip p ≠ "98") := by
  refine ⟨rfl, fun parts => ⟨List.filter_sublist parts, fun p => ?_⟩⟩
  simp [sanitize, List.mem_filter, and_comm]

/-- C7 counterexample: `normalize_phone` deletes every `'+'` in the
string, not only a leading one: on `"+2547+00"` the code yields
`"254700"` while deleting only the front `'+'` yields `"2547+00"`. -/
theorem normalize_phone_counterexample :
    normalize_phone "+2547+00" = "254700" ∧
    strip_leading_plus_spec "+2547+00" = "2547+00" ∧
    ("254700" : String) ≠ "2547+00" := by
  refine ⟨by decide, by decide, by decide⟩

/-- C7 (amended): the phone stored at commit is the caller phone with
*every* `'+'` removed and surrounding whitespace stripped; in particular
no `'+'` survives normalization, and on a clean input `"+" ++ q` (with
`q` plus-free and whitespace-trimmed) this coincides with deleting the
leading `'+'`. -/
theorem normalize_phone_amended (q : String) (h1 : '+' ∉ q.data) (h2 : pyStrip q = q) :
    normalize_phone ("+" ++ q) = q ∧ normalize_phone q = q ∧
    ∀ p : String, '+' ∉ (normalize_phone p).data := by
  have hfilter : q.data.filter (fun c => c ≠ '+') = q.data := by
    refine List.filter_eq_self.2 (fun a ha => ?_)
    simp only [ne_eq, decide_eq_true_eq]
    exact fun e => h1 (e ▸ ha)
  have hq : String.mk q.data = q := rfl
  refine ⟨?_, ?_, ?_⟩
  · show pyStrip (String.mk ((("+" ++ q).data).filter (fun c => c ≠ '+'))) = q
    rw [String.data_append]
    show pyStrip (String.mk (List.filter _ ('+' :: q.data))) = q
    rw [List.filter_cons_of_neg (by decide), hfilter, hq, h2]
  · show pyStrip (String.mk ((q.data).filter (fun c => c ≠ '+'))) = q
    rw [hfilter, hq, h2]
  · intro p hmem
    have h3 : '+' ∈ (String.mk (p.data.filter (fun c => c ≠ '+'))).data :=
      mem_pyStrip_data hmem
    have h4 : '+' ∈ p.data.filter (fun c => c ≠ '+') := h3
    have := (List.mem_filter.1 h4).2
    simp at this

/-- Closed witness for `normalize_phone_amended`. -/
theorem normalize_phone_amended_witness :
    normalize_phone ("+" ++ "254700000") = "254700000" ∧
    normalize_phone "254700000" = "254700000" ∧
    ∀ p : String, '+' ∉ (normalize_phone p).data :=
  normalize_phone_amended "254700000" (by decide) (by decide)

/-- C8: the category identifiers queried for Pickups include both
`"Transport - Pickups"` and the legacy bare `"Transport"`, while Riders
and Lorries query only their own composite identifier; hence a record
stored with category `"Transport"` is matched by a Pickups browse (shown
whenever it is among the up-to-20 rows read) but by neither a Riders nor
a Lorries browse. -/
theorem transport_legacy_queries (db : List Business) (r : Business)
    (hmem : r ∈ db) (hcat : r.category = "Transport") (hlen : db.length ≤ 20) :
    ("Transport" ∈ transport_query_categories "Pickups" ∧
      "Transport - Pickups" ∈ transport_query_categories "Pickups") ∧
    transport_query_categories "Riders" = ["Transport - Riders"] ∧
    transport_query_categories "Lorries" = ["Transport - Lorries"] ∧
    r ∈ list_latest_by_categories db (transport_query_categories "Pickups") 20 ∧
    r ∉ list_latest_by_categories db (transport_query_categories "Riders") 20 ∧
    r ∉ list_latest_by_categories db (transport_query_categories "Lorries") 20 := by
  refine ⟨by decide, by decide, by decide, ?_, ?_, ?_⟩
  · unfold list_latest_by_categories
    rw [List.take_of_length_le (Nat.le_trans (List.length_filter_le _ _) hlen)]
    refine List.mem_filter.2 ⟨hmem, ?_⟩
    rw [hcat]; decide
  · intro hin
    have h := (List.mem_filter.1 (List.take_subset _ _ hin)).2
    rw [hcat] at h
    exact absurd h (by decide)
  · intro hin
    have h := (List.mem_filter.1 (List.take_subset _ _ hin)).2
    rw [hcat] at h
    exact absurd h (by decide)

/-- Closed witness for `transport_legacy_queries`: one legacy
`"Transport"` record in the catalog. -/
theorem transport_legacy_queries_witness :
    ("Transport" ∈ transport_query_categories "Pickups" ∧
      "Transport - Pickups" ∈ transport_query_categories "Pickups") ∧
    transport_query_categories "Riders" = ["Transport - Riders"] ∧
    transport_query_categories "Lorries" = ["Transport - Lorries"] ∧
    (⟨"Old Boda", "Transport", "0700", "Sega"⟩ : Business) ∈
      list_latest_by_categories [⟨"Old Boda", "Transport", "0700", "Sega"⟩]
        (transport_query_categories "Pickups") 20 ∧
    (⟨"Old Boda", "Transport", "0700", "Sega"⟩ : Business) ∉
      list_latest_by_categories [⟨"Old Boda", "Transport", "0700", "Sega"⟩]
        (transport_query_categories "Riders") 20 ∧
    (⟨"Old Boda", "Transport", "0700", "Sega"⟩ : Business) ∉
      list_latest_by_categories [⟨"Old Boda", "Transport", "0700", "Sega"⟩]
        (transport_query_categories "Lorries") 20 :=
  transport_legacy_queries [⟨"Old Boda", "Transport", "0700", "Sega"⟩]
    ⟨"Old Boda", "Transport", "0700", "Sega"⟩ (by decide) (by decide) (by decide)

set_option maxHeartbeats 1000000 in
/-- C9: inside the wizard a `"0"` token is never treated as
back-navigation: the go-home rule keys only on the first token, so
`["8", "0"]` yields the invalid-village re-prompt (the session is
untouched and the reply is not the main menu), and at the name step the
sequence `["8", "2", "0"]` stores `"0"` as the business name (and shows
the category-choice screen). -/
theorem wizard_zero_not_back :
    (ussd_parts [] Session.fresh "" ["8", "0"]).1
        = "CON Invalid village. Choose 1-3.\n0. Back" ∧
    (ussd_parts [] Session.fresh "" ["8", "0"]).2.1 = Session.fresh ∧
    (ussd_parts [] Session.fresh "" ["8", "0"]).1 ≠ main_menu ∧
    (ussd_parts [] Session.fresh "" ["8", "2", "0"]).1 = category_choice_screen ∧
    (ussd_parts [] Session.fresh "" ["8", "2", "0"]).2.1.add.name = some "0" := by
  refine ⟨by decide, by decide, by decide, by decide, by decide⟩

set_option maxHeartbeats 1000000 in
/-- C1 counterexample: a *single* request carrying the whole token
sequence `["8", "2", "Mama Jane Shop", "1", "1"]` against a fresh session
whose wizard state is empty does **not** save: the wizard fields were
never stored (they are only written by the earlier, shorter requests of
an accumulated dialog), so the code answers the terminating
`"END Missing data. Please try again."` screen and inserts nothing. -/
theorem scenario1_single_request_counterexample :
    (ussd [] Session.fresh "+254700000001" "8*2*Mama Jane Shop*1*1").1
        = "END Missing data. Please try again." ∧
    ¬ beginsWith "END Saved"
        (ussd [] Session.fresh "+254700000001" "8*2*Mama Jane Shop*1*1").1 ∧
    (ussd [] Session.fresh "+254700000001" "8*2*Mama Jane Shop*1*1").2.2 = [] := by
  refine ⟨by decide, by decide, by decide⟩

set_option maxHeartbeats 4000000 in
/-- C1 (amended): run as an accumulated multi-turn dialog from a fresh
session — the gateway resending the full text each turn, i.e. the turns
`8`, `8*2`, `8*2*Mama Jane Shop`, `8*2*Mama Jane Shop*1`,
`8*2*Mama Jane Shop*1*1` with caller phone `+254700000001` — the final
reply is the terminating screen beginning `"END Saved"`, exactly one
catalog record `{name: Mama Jane Shop, category: Shops & Daily Needs,
phone: 254700000001, village: Bumala}` is inserted, and the wizard state
is reset to empty. -/
theorem scenario1_accumulated_replay :
    replay [] "+254700000001" Session.fresh
        ["8", "8*2", "8*2*Mama Jane Shop", "8*2*Mama Jane Shop*1", "8*2*Mama Jane Shop*1*1"]
      = ("END Saved! You are now listed. Thank you.", Session.fresh,
         [⟨"Mama Jane Shop", "Shops & Daily Needs", "254700000001", "Bumala"⟩]) ∧
    beginsWith "END Saved"
      (replay [] "+254700000001" Session.fresh
        ["8", "8*2", "8*2*Mama Jane Shop", "8*2*Mama Jane Shop*1",
         "8*2*Mama Jane Shop*1*1"]).1 := by
  refine ⟨by decide, by decide⟩
/-- A list of length at least five starts with five elements. -/
theorem len_ge_five_shape {α : Type} (l : List α) (h : 5 ≤ l.length) :
    ∃ a b c d e rest, l = a :: b :: c :: d :: e :: rest := by
  rcases l with _ | ⟨a, l⟩; · simp at h
  rcases l with _ | ⟨b, l⟩; · simp at h
  rcases l with _ | ⟨c, l⟩; · simp at h
  rcases l with _ | ⟨d, l⟩; · simp at h
  rcases l with _ | ⟨e, l⟩; · simp at h
  exact ⟨a, b, c, d, e, l, rfl⟩

/-- A list of length at least six starts with six elements. -/
theorem len_ge_six_shape {α : Type} (l : List α) (h : 6 ≤ l.length) :
    ∃ a b c d e f rest, l = a :: b :: c :: d :: e :: f :: rest := by
  rcases l with _ | ⟨a, l⟩; · simp at h
  rcases l with _ | ⟨b, l⟩; · simp at h
  rcases l with _ | ⟨c, l⟩; · simp at h
  rcases l with _ | ⟨d, l⟩; · simp at h
  rcases l with _ | ⟨e, l⟩; · simp at h
  rcases l with _ | ⟨f, l⟩; · simp at h
  exact ⟨a, b, c, d, e, f, l, rfl⟩

/-- Dispatch: a non-empty sanitized sequence whose first token strips to
`"8"` is routed to the Add / Update wizard (it is not the go-home token,
not the recent-list token, and not a category code). -/
theorem ussd_parts_wizard (db : List Business) (s : Session) (ph : String)
    (parts : List String) (h8 : pyStrip (parts.headD "") = "8") (hne : parts ≠ []) :
    ussd_parts db s ph parts = handle_add s ph parts := by
  have h1 : ¬(parts = [] ∨ parts = [""]) := by
    rintro (rfl | rfl)
    · exact hne rfl
    · exact absurd h8 (by decide)
  unfold ussd_parts
  rw [if_neg h1]
  simp only [h8]
  rw [if_neg (show ("8" : String) ≠ "0" by decide)]
  rw [if_neg (show ("8" : String) ≠ "9" by decide)]
  have hc : (category_label "8").getD "" = "" := by decide
  simp only [hc]
  rw [if_neg (show ("" : String) ≠ "Transport" by decide)]
  rw [if_neg (show ¬(("" : String) ≠ "" ∧ (PILOT_CATEGORIES.map Prod.fst).contains "8" = true) from fun h => h.1 rfl)]
  exact if_pos trivial

/-- Wizard step A (app.py lines 402-408): a bare `["8"]` resets the
wizard and shows the village choices. -/
theorem handle_add_one (s : Session) (ph a : String) :
    handle_add s ph [a] = (village_choice_screen, { s with add := AddState.empty }, []) := by
  rfl

/-- Wizard step A2, invalid village (app.py line 415): the session is
returned untouched. -/
theorem handle_add_two_invalid (s : Session) (ph a b : String)
    (hv : village_label (pyStrip b) = none) :
    handle_add s ph [a, b] = ("CON Invalid village. Choose 1-3.\n0. Back", s, []) := by
  unfold handle_add
  norm_num [hv, List.getD_cons_succ, List.getD_cons_zero]

/-- Wizard step B, empty name (app.py line 424): the session is returned
untouched. -/
theorem handle_add_three_empty (s : Session) (ph a b c : String)
    (hn : pyStrip c = "") :
    handle_add s ph [a, b, c] = ("CON Please enter a business name:\n0. Back", s, []) := by
  unfold handle_add
  norm_num [hn, List.getD_cons_succ, List.getD_cons_zero]

/-- Wizard step C, invalid category (app.py line 438): the session is
returned untouched. -/
theorem handle_add_four_invalid (s : Session) (ph a b c d : String)
    (hc : category_label (pyStrip d) = none) :
    handle_add s ph [a, b, c, d] = ("CON Invalid category. Choose 1-7.\n0. Back", s, []) := by
  unfold handle_add
  norm_num [hc, List.getD_cons_succ, List.getD_cons_zero]

/-- Wizard step C2, invalid transport sub-category (app.py lines
476-479): the session is returned untouched. -/
theorem handle_add_five_transport_invalid (s : Session) (ph a b c d e : String)
    (hm : s.add.category_main = some "Transport")
    (hs : transport_subcat_label (pyStrip e) = none) :
    handle_add s ph [a, b, c, d, e]
      = ("CON Invalid option.\n1. Riders\n2. Pickups\n3. Lorries\n0. Back", s, []) := by
  unfold handle_add
  norm_num [hm, hs, List.getD_cons_succ, List.getD_cons_zero]

/-- Evaluation of the wizard on a sequence of length at least five when
the stored main category is not Transport: the confirm/cancel block runs
with the action read from offset 4 (app.py lines 505-535). -/
theorem handle_add_action_nonT (s : Session) (ph a b c d e : String) (rest : List String)
    (hm : ¬ s.add.category_main = some "Transport") :
    handle_add s ph (a :: b :: c :: d :: e :: rest) =
      (if pyStrip e = "2" then ("END Cancelled.", { s with add := AddState.empty }, [])
       else if pyStrip e = "1" then
         if s.add.village.getD "Bumala" = "" ∨ pyStrip (s.add.name.getD "") = "" ∨
             pyStrip (s.add.category_main.getD "") = "" ∨ normalize_phone ph = "" then
           ("END Missing data. Please try again.", { s with add := AddState.empty }, [])
         else
           ("END Saved! You are now listed. Thank you.", { s with add := AddState.empty },
            [insert_business (pyStrip (s.add.name.getD ""))
               (normalize_category_for_storage (pyStrip (s.add.category_main.getD ""))
                 (if pyStrip (s.add.category_main.getD "") = "Transport" then
                    some (pyStrip (s.add.category_sub.getD "")) else none))
               (normalize_phone ph) (s.add.village.getD "Bumala")])
       else ("CON Invalid option.\n1. Confirm\n2. Cancel\n0. Back", s, [])) := by
  unfold handle_add
  rw [if_neg (by simp), if_neg (by simp), if_neg (by simp), if_neg (by simp)]
  rw [if_neg (fun h => hm h.2)]
  rw [if_pos (by simp)]
  rw [if_neg (fun h => hm h.1)]
  rw [if_neg hm]
  simp only [List.getD_cons_succ, List.getD_cons_zero]
  split_ifs <;> rfl

/-- Evaluation of the wizard on a sequence of length at least six when
the stored main category is Transport: the confirm/cancel block runs with
the action read from offset 5 (app.py lines 505-535). -/
theorem handle_add_action_transport (s : Session) (ph a b c d e f : String) (rest : List String)
    (hm : s.add.category_main = some "Transport") :
    handle_add s ph (a :: b :: c :: d :: e :: f :: rest) =
      (if pyStrip f = "2" then ("END Cancelled.", { s with add := AddState.empty }, [])
       else if pyStrip f = "1" then
         if s.add.village.getD "Bumala" = "" ∨ pyStrip (s.add.name.getD "") = "" ∨
             pyStrip (s.add.category_main.getD "") = "" ∨ normalize_phone ph = "" then
           ("END Missing data. Please try again.", { s with add := AddState.empty }, [])
         else
           ("END Saved! You are now listed. Thank you.", { s with add := AddState.empty },
            [insert_business (pyStrip (s.add.name.getD ""))
               (normalize_category_for_storage (pyStrip (s.add.category_main.getD ""))
                 (if pyStrip (s.add.category_main.getD "") = "Transport" then
                    some (pyStrip (s.add.category_sub.getD "")) else none))
               (normalize_phone ph) (s.add.village.getD "Bumala")])
       else ("CON Invalid option.\n1. Confirm\n2. Cancel\n0. Back", s, [])) := by
  unfold handle_add
  rw [if_neg (by simp), if_neg (by simp), if_neg (by simp), if_neg (by simp)]
  rw [if_neg (by simp)]
  rw [if_pos (by simp)]
  rw [if_neg (by simp)]
  rw [if_pos hm]
  simp only [List.getD_cons_succ, List.getD_cons_zero]
  split_ifs <;> rfl

/-- A list of length four is a four-element list. -/
theorem len_eq_four_shape {α : Type} (l : List α) (h : l.length = 4) :
    ∃ a b c d, l = [a, b, c, d] := by
  rcases l with _ | ⟨a, l⟩; · simp at h
  rcases l with _ | ⟨b, l⟩; · simp at h
  rcases l with _ | ⟨c, l⟩; · simp at h
  rcases l with _ | ⟨d, l⟩; · simp at h
  rcases l with _ | ⟨e, l⟩
  · exact ⟨a, b, c, d, rfl⟩
  · simp at h

/-- A list of length five is a five-element list. -/
theorem len_eq_five_shape {α : Type} (l : List α) (h : l.length = 5) :
    ∃ a b c d e, l = [a, b, c, d, e] := by
  rcases l with _ | ⟨a, l⟩; · simp at h
  rcases l with _ | ⟨b, l⟩; · simp at h
  rcases l with _ | ⟨c, l⟩; · simp at h
  rcases l with _ | ⟨d, l⟩; · simp at h
  rcases l with _ | ⟨e, l⟩; · simp at h
  rcases l with _ | ⟨f, l⟩
  · exact ⟨a, b, c, d, e, rfl⟩
  · simp at h

/-- A list of length six is a six-element list. -/
theorem len_eq_six_shape {α : Type} (l : List α) (h : l.length = 6) :
    ∃ a b c d e f, l = [a, b, c, d, e, f] := by
  rcases l with _ | ⟨a, l⟩; · simp at h
  rcases l with _ | ⟨b, l⟩; · simp at h
  rcases l with _ | ⟨c, l⟩; · simp at h
  rcases l with _ | ⟨d, l⟩; · simp at h
  rcases l with _ | ⟨e, l⟩; · simp at h
  rcases l with _ | ⟨f, l⟩; · simp at h
  rcases l with _ | ⟨g, l⟩
  · exact ⟨a, b, c, d, e, f, rfl⟩
  · simp at h

/-- C4: inside the wizard, every request whose current-step token fails
validation (village not among the three fixed villages, name empty or
whitespace-only, category not among the seven fixed categories, transport
sub-category invalid at its step, or confirm action other than `"1"` and
`"2"` at the arity-dependent action offset) gets a continuing `CON`
re-prompt from the fixed set of error screens, while the session
(including every stored wizard field) is returned unchanged and nothing
is inserted. -/
theorem wizard_invalid_input_frame (db : List Business) (s : Session) (ph : String)
    (parts : List String) (h8 : pyStrip (parts.headD "") = "8")
    (hbad :
      (parts.length = 2 ∧ village_label (pyStrip (parts.getD 1 "")) = none) ∨
      (parts.length = 3 ∧ pyStrip (parts.getD 2 "") = "") ∨
      (parts.length = 4 ∧ category_label (pyStrip (parts.getD 3 "")) = none) ∨
      (parts.length = 5 ∧ s.add.category_main = some "Transport" ∧
        transport_subcat_label (pyStrip (parts.getD 4 "")) = none) ∨
      (5 ≤ parts.length ∧ ¬ s.add.category_main = some "Transport" ∧
        pyStrip (parts.getD 4 "") ≠ "1" ∧ pyStrip (parts.getD 4 "") ≠ "2") ∨
      (6 ≤ parts.length ∧ s.add.category_main = some "Transport" ∧
        pyStrip (parts.getD 5 "") ≠ "1" ∧ pyStrip (parts.getD 5 "") ≠ "2")) :
    (ussd_parts db s ph parts).2.1 = s ∧ (ussd_parts db s ph parts).2.2 = [] ∧
    beginsWith "CON" (ussd_parts db s ph parts).1 ∧
    (ussd_parts db s ph parts).1 ∈
      (["CON Invalid village. Choose 1-3.\n0. Back",
        "CON Please enter a business name:\n0. Back",
        "CON Invalid category. Choose 1-7.\n0. Back",
        "CON Invalid option.\n1. Riders\n2. Pickups\n3. Lorries\n0. Back",
        "CON Invalid option.\n1. Confirm\n2. Cancel\n0. Back"] : List String) := by
  have hne : parts ≠ [] := by
    rcases hbad with ⟨h, -⟩ | ⟨h, -⟩ | ⟨h, -⟩ | ⟨h, -⟩ | ⟨h, -⟩ | ⟨h, -⟩ <;>
      (intro e; rw [e] at h; simp at h)
  rw [ussd_parts_wizard db s ph parts h8 hne]
  rcases hbad with ⟨hl, hv⟩ | ⟨hl, hv⟩ | ⟨hl, hv⟩ | ⟨hl, hm, hv⟩ | ⟨hl, hm, h1, h2⟩ |
    ⟨hl, hm, h1, h2⟩
  · obtain ⟨a, b, rfl⟩ := List.length_eq_two.1 hl
    simp only [List.getD_cons_succ, List.getD_cons_zero] at hv
    rw [handle_add_two_invalid s ph a b hv]
    exact ⟨rfl, rfl, rfl, by simp⟩
  · obtain ⟨a, b, c, rfl⟩ := List.length_eq_three.1 hl
    simp only [List.getD_cons_succ, List.getD_cons_zero] at hv
    rw [handle_add_three_empty s ph a b c hv]
    exact ⟨rfl, rfl, rfl, by simp⟩
  · obtain ⟨a, b, c, d, rfl⟩ := len_eq_four_shape parts hl
    simp only [List.getD_cons_succ, List.getD_cons_zero] at hv
    rw [handle_add_four_invalid s ph a b c d hv]
    exact ⟨rfl, rfl, rfl, by simp⟩
  · obtain ⟨a, b, c, d, e, rfl⟩ := len_eq_five_shape parts hl
    simp only [List.getD_cons_succ, List.getD_cons_zero] at hv
    rw [handle_add_five_transport_invalid s ph a b c d e hm hv]
    exact ⟨rfl, rfl, rfl, by simp⟩
  · obtain ⟨a, b, c, d, e, rest, rfl⟩ := len_ge_five_shape parts hl
    simp only [List.getD_cons_succ, List.getD_cons_zero] at h1 h2
    rw [handle_add_action_nonT s ph a b c d e rest hm, if_neg h2, if_neg h1]
    exact ⟨rfl, rfl, rfl, by simp⟩
  · obtain ⟨a, b, c, d, e, f, rest, rfl⟩ := len_ge_six_shape parts hl
    simp only [List.getD_cons_succ, List.getD_cons_zero] at h1 h2
    rw [handle_add_action_transport s ph a b c d e f rest hm, if_neg h2, if_neg h1]
    exact ⟨rfl, rfl, rfl, by simp⟩

/-- C5: a wizard request whose final token is the action token `"2"`
(offset 4 for a non-Transport wizard, offset 5 — length six — when the
stored main category is Transport) terminates with `"END Cancelled."`,
clears the wizard state, inserts nothing, and a subsequent request whose
sequence is exactly `["8"]` re-renders the village-choice step (again
with a cleared wizard). -/
theorem wizard_cancel_clears_state (db : List Business) (s : Session) (ph : String)
    (parts : List String) (h8 : pyStrip (parts.headD "") = "8")
    (hcancel :
      (¬ s.add.category_main = some "Transport" ∧ parts.length = 5 ∧
        pyStrip (parts.getD 4 "") = "2") ∨
      (s.add.category_main = some "Transport" ∧ parts.length = 6 ∧
        pyStrip (parts.getD 5 "") = "2")) :
    (ussd_parts db s ph parts).1 = "END Cancelled." ∧
    (ussd_parts db s ph parts).2.1.add = AddState.empty ∧
    (ussd_parts db s ph parts).2.2 = [] ∧
    ∀ (db2 : List Business) (ph2 : String),
      ussd_parts db2 (ussd_parts db s ph parts).2.1 ph2 ["8"]
        = (village_choice_screen,
           { (ussd_parts db s ph parts).2.1 with add := AddState.empty }, []) := by
  have hne : parts ≠ [] := by
    rcases hcancel with ⟨-, h, -⟩ | ⟨-, h, -⟩ <;> (intro e; rw [e] at h; simp at h)
  rw [ussd_parts_wizard db s ph parts h8 hne]
  have hmain : handle_add s ph parts = ("END Cancelled.", { s with add := AddState.empty }, []) := by
    rcases hcancel with ⟨hm, hl, ha⟩ | ⟨hm, hl, ha⟩
    · obtain ⟨a, b, c, d, e, rfl⟩ := len_eq_five_shape parts hl
      simp only [List.getD_cons_succ, List.getD_cons_zero] at ha
      rw [handle_add_action_nonT s ph a b c d e [] hm, if_pos ha]
    · obtain ⟨a, b, c, d, e, f, rfl⟩ := len_eq_six_shape parts hl
      simp only [List.getD_cons_succ, List.getD_cons_zero] at ha
      rw [handle_add_action_transport s ph a b c d e f [] hm, if_pos ha]
  rw [hmain]
  refine ⟨rfl, rfl, rfl, ?_⟩
  intro db2 ph2
  rw [ussd_parts_wizard db2 _ ph2 ["8"] (by decide) (by decide)]
  rw [handle_add_one]

/-- C10: at wizard commit (action token `"1"` at the arity-dependent
offset) with the wizard village field unset, the missing-data failure
screen appears exactly when the stored name, the stored main category or
the normalized caller phone is empty — the absent village never triggers
it — and when the commit succeeds the single inserted record's village
silently defaults to `"Bumala"`. -/
theorem commit_village_default (db : List Business) (s : Session) (ph : String)
    (parts : List String) (h8 : pyStrip (parts.headD "") = "8")
    (hvil : s.add.village = none)
    (hconfirm :
      (¬ s.add.category_main = some "Transport" ∧ 5 ≤ parts.length ∧
        pyStrip (parts.getD 4 "") = "1") ∨
      (s.add.category_main = some "Transport" ∧ 6 ≤ parts.length ∧
        pyStrip (parts.getD 5 "") = "1")) :
    ((ussd_parts db s ph parts).1 = "END Missing data. Please try again." ↔
      (pyStrip (s.add.name.getD "") = "" ∨ pyStrip (s.add.category_main.getD "") = "" ∨
        normalize_phone ph = "")) ∧
    ((ussd_parts db s ph parts).2.2.map Business.village =
      if pyStrip (s.add.name.getD "") = "" ∨ pyStrip (s.add.category_main.getD "") = "" ∨
          normalize_phone ph = "" then [] else ["Bumala"]) := by
  have hne : parts ≠ [] := by
    rcases hconfirm with ⟨-, h, -⟩ | ⟨-, h, -⟩ <;> (intro e; rw [e] at h; simp at h)
  rw [ussd_parts_wizard db s ph parts h8 hne]
  have hstep : handle_add s ph parts =
      (if ("Bumala" : String) = "" ∨ pyStrip (s.add.name.getD "") = "" ∨
          pyStrip (s.add.category_main.getD "") = "" ∨ normalize_phone ph = "" then
        ("END Missing data. Please try again.", { s with add := AddState.empty }, [])
      else
        ("END Saved! You are now listed. Thank you.", { s with add := AddState.empty },
         [insert_business (pyStrip (s.add.name.getD ""))
            (normalize_category_for_storage (pyStrip (s.add.category_main.getD ""))
              (if pyStrip (s.add.category_main.getD "") = "Transport" then
                 some (pyStrip (s.add.category_sub.getD "")) else none))
            (normalize_phone ph) "Bumala"])) := by
    rcases hconfirm with ⟨hm, hl, ha⟩ | ⟨hm, hl, ha⟩
    · obtain ⟨a, b, c, d, e, rest, rfl⟩ := len_ge_five_shape parts hl
      simp only [List.getD_cons_succ, List.getD_cons_zero] at ha
      rw [handle_add_action_nonT s ph a b c d e rest hm, ha,
        if_neg (by decide : ¬("1" : String) = "2"), if_pos rfl, hvil]
      simp only [Option.getD_none]
    · obtain ⟨a, b, c, d, e, f, rest, rfl⟩ := len_ge_six_shape parts hl
      simp only [List.getD_cons_succ, List.getD_cons_zero] at ha
      rw [handle_add_action_transport s ph a b c d e f rest hm, ha,
        if_neg (by decide : ¬("1" : String) = "2"), if_pos rfl, hvil]
      simp only [Option.getD_none]
  rw [hstep]
  by_cases hq : (pyStrip (s.add.name.getD "") = "" ∨ pyStrip (s.add.category_main.getD "") = "" ∨
      normalize_phone ph = "")
  · rw [if_pos (Or.inr hq), if_pos hq]
    exact ⟨iff_of_true rfl hq, rfl⟩
  · have hq4 : ¬(("Bumala" : String) = "" ∨ pyStrip (s.add.name.getD "") = "" ∨
        pyStrip (s.add.category_main.getD "") = "" ∨ normalize_phone ph = "") := by
      rintro (h | h)
      · exact absurd h (by decide)
      · exact hq h
    rw [if_neg hq4, if_neg hq]
    refine ⟨iff_of_false
      (by decide :
        ¬("END Saved! You are now listed. Thank you." : String)
          = "END Missing data. Please try again.") hq, ?_⟩
    simp only [List.map_cons, List.map_nil, insert_business]
    decide

/-- Closed witness for `wizard_invalid_input_frame`: the sequence
`["8", "7"]` (invalid village choice) on a fresh session. -/
theorem wizard_invalid_input_frame_witness :
    (ussd_parts [] Session.fresh "" ["8", "7"]).2.1 = Session.fresh ∧
    (ussd_parts [] Session.fresh "" ["8", "7"]).2.2 = [] ∧
    beginsWith "CON" (ussd_parts [] Session.fresh "" ["8", "7"]).1 ∧
    (ussd_parts [] Session.fresh "" ["8", "7"]).1 ∈
      (["CON Invalid village. Choose 1-3.\n0. Back",
        "CON Please enter a business name:\n0. Back",
        "CON Invalid category. Choose 1-7.\n0. Back",
        "CON Invalid option.\n1. Riders\n2. Pickups\n3. Lorries\n0. Back",
        "CON Invalid option.\n1. Confirm\n2. Cancel\n0. Back"] : List String) :=
  wizard_invalid_input_frame [] Session.fresh "" ["8", "7"] (by decide) (Or.inl (by decide))

/-- Closed witness for `wizard_cancel_clears_state`: cancelling a
non-Transport wizard at the fifth token and then dialling `8` again. -/
theorem wizard_cancel_clears_state_witness :
    (ussd_parts [] Session.fresh "" ["8", "2", "Shop", "1", "2"]).1 = "END Cancelled." ∧
    (ussd_parts [] Session.fresh "" ["8", "2", "Shop", "1", "2"]).2.1.add = AddState.empty ∧
    ussd_parts [] (ussd_parts [] Session.fresh "" ["8", "2", "Shop", "1", "2"]).2.1 "" ["8"]
      = (village_choice_screen,
         { (ussd_parts [] Session.fresh "" ["8", "2", "Shop", "1", "2"]).2.1 with
             add := AddState.empty }, []) := by
  have h := wizard_cancel_clears_state [] Session.fresh "" ["8", "2", "Shop", "1", "2"]
    (by decide) (Or.inl (by decide))
  exact ⟨h.1, h.2.1, h.2.2.2 [] ""⟩

/-- Closed witness for `commit_village_default`: committing with a stored
name and category but no village inserts a `"Bumala"` record. -/
theorem commit_village_default_witness :
    ((ussd_parts [] ⟨[], ⟨none, some "Mama", some "Shops & Daily Needs", none⟩⟩
        "+254700000001" ["8", "a", "b", "c", "1"]).1
          = "END Missing data. Please try again." ↔
      (("Mama" : String) = "" ∨ ("Shops & Daily Needs" : String) = "" ∨
        ("254700000001" : String) = "")) ∧
    ((ussd_parts [] ⟨[], ⟨none, some "Mama", some "Shops & Daily Needs", none⟩⟩
        "+254700000001" ["8", "a", "b", "c", "1"]).2.2.map Business.village =
      if ("Mama" : String) = "" ∨ ("Shops & Daily Needs" : String) = "" ∨
          ("254700000001" : String) = "" then [] else ["Bumala"]) :=
  commit_village_default [] ⟨[], ⟨none, some "Mama", some "Shops & Daily Needs", none⟩⟩
    "+254700000001" ["8", "a", "b", "c", "1"] (by decide) (by decide) (Or.inl (by decide))
